import Mathlib

/-!
Shallow embedding of the format-adaptation planner of
`python-ffmpeg-billboard-video-adapter` (`src/src/video_processor.py`),
of its batch driver `batch_adapt`, and of the region-union helper that the
UI layer (`src/app.py`) consumes.

`adapt_to_format` builds an FFmpeg filter chain as a list of textual filter
stages (`vf_chain.append(...)` / a `filter_complex` string) and then hands
the chain, together with the output arguments, to a backend runner
(`_run_simple_filter` / `_run_complex_filter`).  The embedding represents
each textual stage by a structured `Stage` value carrying exactly the
parameters the Python code writes into the string, and represents "the
backend is invoked with these arguments" by returning an `Invocation`
value inside `Except.ok`; an `Except.error` models a raised exception
before any backend call.
-/

namespace Billboard

/-- One FFmpeg filter stage, as appended to the chain by
`adapt_to_format` / `_run_complex_filter`:

* `scale w h increase` — `scale={w}:{h}:force_original_aspect_ratio=increase`
  (cover the box) when `increase = true`, `...=decrease` (fit inside) otherwise;
* `pad w h` — `pad={w}:{h}:(ow-iw)/2:(oh-ih)/2:color=black` (centered, black);
* `crop w h` — `crop={w}:{h}` (FFmpeg default: centered, no offset arguments);
* `boxblur radius power` — `boxblur=20:2` in the blurred-background branch;
* `eqAdjust c b s` — `eq=contrast={c}:brightness={b}:saturation={s}`;
* `unsharp lx ly la` — `unsharp=lx={lx}:ly={ly}:la={la}`. -/
inductive Stage where
  | scale (w h : Int) (increase : Bool)
  | pad (w h : Int)
  | crop (w h : Int)
  | boxblur (radius power : Nat)
  | eqAdjust (contrast brightness saturation : ℚ)
  | unsharp (lx ly : Nat) (la : ℚ)
  deriving DecidableEq, Repr

/-- Holds exactly on crop stages. -/
def Stage.isCrop : Stage → Bool
  | Stage.crop _ _ => true
  | _ => false

/-- Holds exactly on scaling stages. -/
def Stage.isScale : Stage → Bool
  | Stage.scale _ _ _ => true
  | _ => false

/-- Holds exactly on the two legibility-enhancement stage kinds
(`eq` colour/contrast adjustment and `unsharp` sharpening). -/
def Stage.isEnhance : Stage → Bool
  | Stage.eqAdjust _ _ _ => true
  | Stage.unsharp _ _ _ => true
  | _ => false

/-- The backend invocation `adapt_to_format` performs:

* `simple vf r` — `_run_simple_filter` with the comma-joined chain `vf` and,
  when `r = some f`, the output argument `r = f` (the container frame rate);
* `complexF bg fg post r` — `_run_complex_filter` with
  `filter_complex = [0:v]{bg}[bg];[0:v]{fg}[fg];[bg][fg]overlay=(W-w)/2:(H-h)/2{post}`,
  where `post` is the stage list `_run_complex_filter` appends after the
  centered overlay, and `r` as above. -/
inductive Invocation where
  | simple (vf : List Stage) (r : Option Int)
  | complexF (bg fg post : List Stage) (r : Option Int)
  deriving DecidableEq, Repr

/-- All filter stages of an invocation, in the order they occur in the
filter string handed to FFmpeg (for the complex filter: background chain,
then foreground chain, then the stages appended after the overlay). -/
def Invocation.mainChain : Invocation → List Stage
  | Invocation.simple vf _ => vf
  | Invocation.complexF bg fg post _ => bg ++ fg ++ post

/-- The chain applied to the content (foreground) pixels: the whole chain
on the simple path, the `[fg]` branch on the complex path. -/
def Invocation.fgChain : Invocation → List Stage
  | Invocation.simple vf _ => vf
  | Invocation.complexF _ fg _ _ => fg

/-- The blurred-background branch of the complex filter; empty on the
simple path. -/
def Invocation.bgChain : Invocation → List Stage
  | Invocation.simple _ _ => []
  | Invocation.complexF bg _ _ _ => bg

/-- The container frame-rate argument of the invocation. -/
def Invocation.rate : Invocation → Option Int
  | Invocation.simple _ r => r
  | Invocation.complexF _ _ _ r => r

/-- The arguments of `adapt_to_format` that shape the filter chain.
`input_path` and `output_path` only name files and are omitted. -/
structure AdaptArgs where
  target_w : Int
  target_h : Int
  mode : String := "fit"
  blur_bg : Bool := false
  legibility_boost : Bool := false
  roi_center : Option (ℚ × ℚ) := none
  fps : Option Int := none
  deriving DecidableEq, Repr

/-- Python truthiness applied to the fps argument: `if fps:` guards the
output argument `r = fps` in `_run_simple_filter` and
`_run_complex_filter`: the frame-rate argument is emitted only when `fps`
is truthy, i.e. present and nonzero (`0` is falsy in Python). -/
def rateArg (fps : Option Int) : Option Int :=
  match fps with
  | none => none
  | some f => if f = 0 then none else some f

/-- The two stages appended when `legibility_boost` is set
(`eq=contrast=1.05:brightness=0.02:saturation=1.08` then
`unsharp=lx=5:ly=5:la=0.7`), identical on the simple path
(`vf_chain.append`) and on the complex path (`_run_complex_filter`
string-appends them after the overlay). -/
def legibilityStages : List Stage :=
  [Stage.eqAdjust (105/100) (2/100) (108/100), Stage.unsharp 5 5 (7/10)]

/-- Embedding of `VideoProcessor.adapt_to_format`, lines 34–108 of
`src/src/video_processor.py`.

* `mode == "fit"` and `blur_bg`: build the `filter_complex` string
  (background: scale-to-cover, `boxblur=20:2`, center crop; foreground:
  scale-to-fit; centered overlay) and call `_run_complex_filter`, which
  appends the legibility stages when requested and emits `r` when `fps`
  is truthy.
* `mode == "fit"` otherwise: chain = scale-to-fit then centered black pad.
* any other `mode` (the bare `else:` branch, commented `# fill (crop)`):
  chain = scale-to-cover then `crop={w}:{h}` — `roi_center` is never read.
* then the legibility stages are appended when requested, the code raises
  if the chain is empty (`"No video filters generated"` — the second
  emptiness check on the joined string is subsumed by this one, since
  every stage renders to a nonempty string), and `_run_simple_filter`
  is called. -/
def adapt_to_format (a : AdaptArgs) : Except String Invocation :=
  if a.mode = "fit" ∧ a.blur_bg then
    Except.ok (Invocation.complexF
      [Stage.scale a.target_w a.target_h true, Stage.boxblur 20 2,
        Stage.crop a.target_w a.target_h]
      [Stage.scale a.target_w a.target_h false]
      (if a.legibility_boost then legibilityStages else [])
      (rateArg a.fps))
  else
    let modeStages : List Stage :=
      if a.mode = "fit" then
        [Stage.scale a.target_w a.target_h false, Stage.pad a.target_w a.target_h]
      else
        [Stage.scale a.target_w a.target_h true, Stage.crop a.target_w a.target_h]
    let vf_chain := modeStages ++ (if a.legibility_boost then legibilityStages else [])
    if vf_chain = [] then
      Except.error "No video filters generated"
    else
      Except.ok (Invocation.simple vf_chain (rateArg a.fps))

/-- One entry of the `profiles` list handed to `batch_adapt`
(`{"key": str, "width": int, "height": int}`). -/
structure Profile where
  key : String
  width : Int
  height : Int
  deriving DecidableEq, Repr

/-- Observable outcome of a `batch_adapt` run: the profiles for which an
adaptation was attempted (in order), the output paths produced before any
failure (these files exist on disk and are not rolled back), and the
first uncaught exception, if any. -/
structure BatchResult where
  attempted : List Profile
  outputs : List String
  failure : Option String
  deriving DecidableEq, Repr

/-- Embedding of `VideoProcessor.batch_adapt`, lines 110–168 of
`src/src/video_processor.py`: a plain `for profile in profiles:` loop that
calls `adapt_to_format` for each profile and appends the returned path to
`outputs`, with no `try`/`except` around the call.  `run` abstracts one
full per-profile adaptation (planning plus backend execution, which may
raise) as an `Except`.  An exception propagates out of the loop: the
profile that raised is the last one attempted, the loop body never runs
for the remaining profiles, and the outputs already written stay on disk. -/
def batch_adapt (run : Profile → Except String String) :
    List Profile → BatchResult
  | [] => { attempted := [], outputs := [], failure := none }
  | p :: rest =>
    match run p with
    | Except.error e => { attempted := [p], outputs := [], failure := some e }
    | Except.ok out =>
      let r := batch_adapt run rest
      { attempted := p :: r.attempted, outputs := out :: r.outputs,
        failure := r.failure }

/-- Modelled from the spec: a detected region of interest, `§3 Region` — a
normalized rectangle `{x, y, w, h}` with all four values in `[0,1]`.  The
region/union code (`suggest_crop_center` and its union helper) is called
from `src/app.py` but its implementation is not among the sources. -/
structure Region where
  x : ℚ
  y : ℚ
  w : ℚ
  h : ℚ
  deriving DecidableEq, Repr

/-- Validity per `§3 Region`: all four components lie in `[0,1]`. -/
def Region.valid (r : Region) : Prop :=
  0 ≤ r.x ∧ r.x ≤ 1 ∧ 0 ≤ r.y ∧ r.y ≤ 1 ∧
    0 ≤ r.w ∧ r.w ≤ 1 ∧ 0 ≤ r.h ∧ r.h ≤ 1

instance (r : Region) : Decidable r.valid := by
  unfold Region.valid; infer_instance

/-- Modelled from the spec: the region-union helper of `§4.2`, absent from
the sources (only its caller `gc.suggest_crop_center` in `src/app.py`
survives).  "Returns `None` for an empty input.  Otherwise computes the
axis-aligned bounding box covering all input regions:
`union.x = max(0, min(r.x for r in regions))`,
`union.y = max(0, min(r.y for r in regions))`, and the unioned box has
right/bottom edges as `min(1, max(r.x+r.w))` / `min(1, max(r.y+r.h))`;
width/height derived as the clamped difference (floored at 0)." -/
def union (regions : List Region) : Option Region :=
  match regions with
  | [] => none
  | r :: rs =>
    let minx := rs.foldl (fun m q => min m q.x) r.x
    let miny := rs.foldl (fun m q => min m q.y) r.y
    let right := rs.foldl (fun m q => max m (q.x + q.w)) (r.x + r.w)
    let bottom := rs.foldl (fun m q => max m (q.y + q.h)) (r.y + r.h)
    let ux := max 0 minx
    let uy := max 0 miny
    let ur := min 1 right
    let ub := min 1 bottom
    some { x := ux, y := uy, w := max 0 (ur - ux), h := max 0 (ub - uy) }

/-- The invocation `adapt_to_format` always reaches: the emptiness guard
never fires because every branch starts the chain with a scale stage. -/
def planned (a : AdaptArgs) : Invocation :=
  if a.mode = "fit" ∧ a.blur_bg then
    Invocation.complexF
      [Stage.scale a.target_w a.target_h true, Stage.boxblur 20 2,
        Stage.crop a.target_w a.target_h]
      [Stage.scale a.target_w a.target_h false]
      (if a.legibility_boost then legibilityStages else [])
      (rateArg a.fps)
  else if a.mode = "fit" then
    Invocation.simple
      ([Stage.scale a.target_w a.target_h false, Stage.pad a.target_w a.target_h]
        ++ (if a.legibility_boost then legibilityStages else []))
      (rateArg a.fps)
  else
    Invocation.simple
      ([Stage.scale a.target_w a.target_h true, Stage.crop a.target_w a.target_h]
        ++ (if a.legibility_boost then legibilityStages else []))
      (rateArg a.fps)

theorem adapt_eq_planned (a : AdaptArgs) :
    adapt_to_format a = Except.ok (planned a) := by
  unfold adapt_to_format planned
  by_cases hb : a.mode = "fit" ∧ a.blur_bg
  · simp [hb]
  · by_cases hf : a.mode = "fit"
    · have hbb : a.blur_bg = false := by
        cases hbl : a.blur_bg
        · rfl
        · exact absurd ⟨hf, hbl⟩ hb
      simp [hf, hbb]
    · simp [hb, hf]

/-- C10: two calls to `adapt_to_format` that agree on every argument except
`roi_center` produce the same backend invocation — the filter chain, the
frame-rate argument and the success/failure outcome never depend on
`roi_center`, whatever the mode. -/
theorem adapt_roi_center_noninterference (a : AdaptArgs) (rc : Option (ℚ × ℚ)) :
    adapt_to_format { a with roi_center := rc } = adapt_to_format a := rfl

/-- C1: evaluation at the failing input.  A fill-mode request carrying the
crop-center hint `(0.8, 0.5)` produces the very invocation the hintless
request produces: `scale=1080:1920:force_original_aspect_ratio=increase`
followed by the offsetless (hence centered) `crop=1080:1920`.  The
`roi_center` parameter — documented in the function docstring as the "ROI
center for intelligent cropping" and flagged in the spec as a latent
defect — is never read, so the crop window is not recentered on the hint. -/
theorem fill_ignores_crop_center_hint :
    adapt_to_format
        { target_w := 1080, target_h := 1920, mode := "fill",
          roi_center := some (4/5, 1/2) } =
      Except.ok (Invocation.simple
        [Stage.scale 1080 1920 true, Stage.crop 1080 1920] none) ∧
    adapt_to_format
        { target_w := 1080, target_h := 1920, mode := "fill",
          roi_center := some (4/5, 1/2) } =
      adapt_to_format { target_w := 1080, target_h := 1920, mode := "fill" } :=
  ⟨rfl, rfl⟩

/-- C2, counterexample: a request with `target_w = 0` is not rejected —
`adapt_to_format` performs no geometry validation, builds the chain
`scale=0:1080:...decrease, pad=0:1080:...` with the non-positive width,
and invokes the backend (`Except.ok` models the `_run_simple_filter`
call), raising no `InvalidGeometry` error. -/
theorem zero_width_reaches_backend :
    adapt_to_format { target_w := 0, target_h := 1080 } =
      Except.ok (Invocation.simple
        [Stage.scale 0 1080 false, Stage.pad 0 1080] none) := rfl

/-- C2, amended: planning never fails on non-positive target geometry.
For every request with `target_w ≤ 0` or `target_h ≤ 0`, `adapt_to_format`
succeeds and hands the backend a chain whose scale stage carries the
non-positive dimensions unchanged; no `InvalidGeometry` (or any other)
planning error exists. -/
theorem invalid_geometry_not_rejected (a : AdaptArgs)
    (h : a.target_w ≤ 0 ∨ a.target_h ≤ 0) :
    ∃ inv, adapt_to_format a = Except.ok inv ∧
      ∃ inc, Stage.scale a.target_w a.target_h inc ∈ inv.mainChain := by
  refine ⟨planned a, adapt_eq_planned a, ?_⟩
  unfold planned Invocation.mainChain
  by_cases hb : a.mode = "fit" ∧ a.blur_bg
  · exact ⟨true, by simp [hb]⟩
  · by_cases hf : a.mode = "fit"
    · have hbb : a.blur_bg = false := by
        cases hbl : a.blur_bg
        · rfl
        · exact absurd ⟨hf, hbl⟩ hb
      exact ⟨false, by simp [hf, hbb]⟩
    · exact ⟨true, by simp [hb, hf]⟩

/-- Witness for C2 at `target_w = 0`, `target_h = 1080`. -/
theorem invalid_geometry_not_rejected_witness :
    (({ target_w := 0, target_h := 1080 } : AdaptArgs).target_w ≤ 0 ∨
      ({ target_w := 0, target_h := 1080 } : AdaptArgs).target_h ≤ 0) ∧
    (∃ inv, adapt_to_format { target_w := 0, target_h := 1080 } = Except.ok inv ∧
      ∃ inc, Stage.scale 0 1080 inc ∈ inv.mainChain) :=
  ⟨Or.inl (by decide),
    invalid_geometry_not_rejected { target_w := 0, target_h := 1080 }
      (Or.inl (by decide))⟩

/-- C3, counterexample: the unrecognized mode string `"stretch"` is not
rejected — no `UnsupportedMode` error is raised; the request succeeds and
is treated exactly as `mode = "fill"`, producing the fill pipeline
(scale-to-cover then centered crop). -/
theorem unrecognized_mode_treated_as_fill :
    adapt_to_format { target_w := 1080, target_h := 1920, mode := "stretch" } =
      adapt_to_format { target_w := 1080, target_h := 1920, mode := "fill" } ∧
    adapt_to_format { target_w := 1080, target_h := 1920, mode := "stretch" } =
      Except.ok (Invocation.simple
        [Stage.scale 1080 1920 true, Stage.crop 1080 1920] none) :=
  ⟨rfl, rfl⟩

/-- C3, amended: any mode string other than `"fit"` falls into the bare
`else:` branch of `adapt_to_format` and is silently treated as `"fill"`:
the produced invocation equals the one for the same request with
`mode = "fill"`, and planning succeeds — no `UnsupportedMode` error
exists. -/
theorem nonfit_mode_is_fill (a : AdaptArgs) (h : a.mode ≠ "fit") :
    adapt_to_format a = adapt_to_format { a with mode := "fill" } ∧
    ∃ inv, adapt_to_format a = Except.ok inv := by
  refine ⟨?_, planned a, adapt_eq_planned a⟩
  rw [adapt_eq_planned, adapt_eq_planned]
  unfold planned
  simp [h]

/-- Witness for C3 at mode `"stretch"`. -/
theorem nonfit_mode_is_fill_witness :
    ({ target_w := 640, target_h := 480, mode := "stretch" } : AdaptArgs).mode ≠ "fit" ∧
    (adapt_to_format { target_w := 640, target_h := 480, mode := "stretch" } =
        adapt_to_format { target_w := 640, target_h := 480, mode := "fill" } ∧
      ∃ inv, adapt_to_format { target_w := 640, target_h := 480, mode := "stretch" } =
        Except.ok inv) :=
  ⟨by decide,
    nonfit_mode_is_fill { target_w := 640, target_h := 480, mode := "stretch" }
      (by decide)⟩

/-- A concrete batch profile used to exercise `batch_adapt`. -/
def pA : Profile := { key := "a", width := 100, height := 100 }

/-- A concrete batch profile whose adaptation fails. -/
def pB : Profile := { key := "b", width := 200, height := 200 }

/-- A concrete batch profile listed after the failing one. -/
def pC : Profile := { key := "c", width := 300, height := 300 }

/-- A per-profile adaptation oracle that fails exactly on `pB`. -/
def demoRun (p : Profile) : Except String String :=
  if p.key = "b" then Except.error "boom"
  else Except.ok (String.append "out_" p.key)

/-- C4, counterexample: in the batch `[pA, pB, pC]` where `pB` fails, the
uncaught exception aborts the `for` loop of `batch_adapt`: only `pA` and
`pB` are attempted and `pC` is never attempted, refuting the claim that a
failure does not prevent the attempt of the remaining sibling profiles
(the output already produced for `pA` does remain). -/
theorem batch_failure_blocks_siblings :
    batch_adapt demoRun [pA, pB, pC] =
      { attempted := [pA, pB], outputs := ["out_a"], failure := some "boom" } ∧
    pC ∉ (batch_adapt demoRun [pA, pB, pC]).attempted := by
  constructor
  · rfl
  · decide

/-- C4, amended: `batch_adapt` attempts profiles sequentially with no
per-profile error handling.  If every profile before `p` succeeds and `p`
fails, the failure propagates out of the loop: exactly the profiles up to
and including `p` are attempted — the siblings after `p` are not — while
the outputs already produced for the earlier profiles remain (one per
preceding profile, no rollback). -/
theorem batch_aborts_at_first_failure (run : Profile → Except String String)
    (pre : List Profile) (p : Profile) (post : List Profile) (e : String)
    (hpre : ∀ q ∈ pre, (run q).isOk = true) (hp : run p = Except.error e) :
    (batch_adapt run (pre ++ p :: post)).attempted = pre ++ [p] ∧
    (batch_adapt run (pre ++ p :: post)).failure = some e ∧
    (batch_adapt run (pre ++ p :: post)).outputs.length = pre.length := by
  induction pre with
  | nil => simp [batch_adapt, hp]
  | cons q qs ih =>
    have hq : (run q).isOk = true := hpre q (List.mem_cons_self q qs)
    obtain ⟨o, ho⟩ : ∃ o, run q = Except.ok o := by
      cases hrq : run q with
      | error e2 => rw [hrq] at hq; simp [Except.isOk, Except.toBool] at hq
      | ok o => exact ⟨o, rfl⟩
    have ih2 := ih fun r hr => hpre r (List.mem_cons_of_mem q hr)
    simp [batch_adapt, ho, ih2.1, ih2.2.1, ih2.2.2]

/-- Witness for C4 at the batch `[pA] ++ pB :: [pC]` with `demoRun`. -/
theorem batch_aborts_at_first_failure_witness :
    (∀ q ∈ [pA], (demoRun q).isOk = true) ∧
    ((batch_adapt demoRun ([pA] ++ pB :: [pC])).attempted = [pA] ++ [pB] ∧
      (batch_adapt demoRun ([pA] ++ pB :: [pC])).failure = some "boom" ∧
      (batch_adapt demoRun ([pA] ++ pB :: [pC])).outputs.length = [pA].length) :=
  ⟨by decide,
    batch_aborts_at_first_failure demoRun [pA] pB [pC] "boom" (by decide) rfl⟩

/-- C5, counterexample: a fit-mode request with `blur_background = true`
does produce a cropping stage — the blurred background branch of the
`filter_complex` string ends in `crop=1920:1080` — so the claim that the
fit-mode pipeline never contains a crop stage fails for the
blurred-background variant. -/
theorem fit_blur_emits_crop_stage :
    (adapt_to_format
        { target_w := 1920, target_h := 1080, mode := "fit",
          blur_bg := true }).map (fun inv => inv.mainChain.any Stage.isCrop) =
      Except.ok true := rfl

/-- C5, amended: in fit mode the foreground (content) chain never contains
a crop stage, so the original content is fully contained in the output
canvas; with `blur_background = false` the whole pipeline is crop-free,
while with `blur_background = true` the single crop stage sits in the
blurred background branch only. -/
theorem fit_crops_only_background (a : AdaptArgs) (h : a.mode = "fit") :
    ∃ inv, adapt_to_format a = Except.ok inv ∧
      inv.fgChain.any Stage.isCrop = false ∧
      (a.blur_bg = false → inv.mainChain.any Stage.isCrop = false) ∧
      (a.blur_bg = true → inv.bgChain.any Stage.isCrop = true) := by
  refine ⟨planned a, adapt_eq_planned a, ?_⟩
  unfold planned Invocation.fgChain Invocation.mainChain Invocation.bgChain
  cases hbb : a.blur_bg with
  | true => simp [h, hbb, Stage.isCrop]
  | false =>
    cases hl : a.legibility_boost <;>
      simp [h, hbb, hl, Stage.isCrop, legibilityStages]

/-- Witness for C5 at a 1920×1080 fit request with blurred background. -/
theorem fit_crops_only_background_witness :
    ({ target_w := 1920, target_h := 1080, mode := "fit", blur_bg := true } :
      AdaptArgs).mode = "fit" ∧
    (∃ inv,
      adapt_to_format
          { target_w := 1920, target_h := 1080, mode := "fit",
            blur_bg := true } = Except.ok inv ∧
        inv.fgChain.any Stage.isCrop = false ∧
        (({ target_w := 1920, target_h := 1080, mode := "fit",
            blur_bg := true } : AdaptArgs).blur_bg = false →
          inv.mainChain.any Stage.isCrop = false) ∧
        (({ target_w := 1920, target_h := 1080, mode := "fit",
            blur_bg := true } : AdaptArgs).blur_bg = true →
          inv.bgChain.any Stage.isCrop = true)) :=
  ⟨rfl,
    fit_crops_only_background
      { target_w := 1920, target_h := 1080, mode := "fit", blur_bg := true }
      rfl⟩

/-- C6: for every request in a recognized mode, the filter pipeline that
reaches the backend is non-empty and contains a scaling stage, so the
emptiness guard of `adapt_to_format` (which would raise
`"No video filters generated"` instead of executing a no-op pipeline,
and is part of the embedded definition) is unreachable: the planner
always returns `Except.ok` with a chain led by a scale stage. -/
theorem pipeline_never_empty (a : AdaptArgs)
    (h : a.mode = "fit" ∨ a.mode = "fill") :
    ∃ inv, adapt_to_format a = Except.ok inv ∧
      inv.mainChain ≠ [] ∧ inv.mainChain.any Stage.isScale = true := by
  refine ⟨planned a, adapt_eq_planned a, ?_⟩
  unfold planned Invocation.mainChain
  cases hbb : a.blur_bg <;> by_cases hf : a.mode = "fit" <;>
    simp [hbb, hf, Stage.isScale]

/-- Witness for C6 at a default 1920×1080 fit request. -/
theorem pipeline_never_empty_witness :
    (({ target_w := 1920, target_h := 1080 } : AdaptArgs).mode = "fit" ∨
      ({ target_w := 1920, target_h := 1080 } : AdaptArgs).mode = "fill") ∧
    (∃ inv, adapt_to_format { target_w := 1920, target_h := 1080 } =
        Except.ok inv ∧
      inv.mainChain ≠ [] ∧ inv.mainChain.any Stage.isScale = true) :=
  ⟨Or.inl rfl,
    pipeline_never_empty { target_w := 1920, target_h := 1080 } (Or.inl rfl)⟩

/-- C7: whatever the mode, the chain handed to the backend is the
mode-specific stages (none of which is an enhancement stage) followed,
exactly when `legibility_boost` is set, by the ordered pair
`eq=contrast=1.05:brightness=0.02:saturation=1.08` then
`unsharp=lx=5:ly=5:la=0.7`; when `legibility_boost` is unset the suffix is
empty, so neither enhancement stage occurs anywhere in the pipeline. -/
theorem legibility_enhancement_suffix (a : AdaptArgs) :
    ∃ inv, adapt_to_format a = Except.ok inv ∧
      ∃ pre, inv.mainChain =
          pre ++ (if a.legibility_boost then
            [Stage.eqAdjust (105/100) (2/100) (108/100),
              Stage.unsharp 5 5 (7/10)]
          else []) ∧
        pre.all (fun s => !(s.isEnhance)) = true := by
  refine ⟨planned a, adapt_eq_planned a, ?_⟩
  unfold planned Invocation.mainChain
  cases hbb : a.blur_bg <;> by_cases hf : a.mode = "fit"
  · exact ⟨[Stage.scale a.target_w a.target_h false,
        Stage.pad a.target_w a.target_h],
      by simp [hbb, hf, legibilityStages], by simp [Stage.isEnhance]⟩
  · exact ⟨[Stage.scale a.target_w a.target_h true,
        Stage.crop a.target_w a.target_h],
      by simp [hbb, hf, legibilityStages], by simp [Stage.isEnhance]⟩
  · exact ⟨[Stage.scale a.target_w a.target_h true, Stage.boxblur 20 2,
        Stage.crop a.target_w a.target_h,
        Stage.scale a.target_w a.target_h false],
      by simp [hbb, hf, legibilityStages], by simp [Stage.isEnhance]⟩
  · exact ⟨[Stage.scale a.target_w a.target_h true,
        Stage.crop a.target_w a.target_h],
      by simp [hbb, hf, legibilityStages], by simp [Stage.isEnhance]⟩

/-- C9, counterexample: the request `fps = Some 0` does specify a target
fps, yet no frame-rate parameter reaches the backend: `if fps:` in
`_run_simple_filter` treats `0` as falsy, so the emitted rate is `none`
rather than `some 0`. -/
theorem fps_zero_not_forwarded :
    (adapt_to_format
        { target_w := 1920, target_h := 1080, fps := some 0 }).map
      Invocation.rate = Except.ok none ∧
    (adapt_to_format
        { target_w := 1920, target_h := 1080, fps := some 0 }).map
      Invocation.rate ≠ Except.ok (some 0) := by
  refine ⟨rfl, fun hc => ?_⟩
  have h2 : (Except.ok (none : Option Int) : Except String (Option Int)) =
      Except.ok (some 0) := Eq.trans (by rfl) hc
  exact Option.noConfusion (Except.ok.inj h2)

/-- C9, amended: on both the simple-filter and complex-filter paths the
container frame-rate parameter equals the requested fps whenever that fps
is present and nonzero, and is absent (source rate preserved) when the
request carries no fps or carries the Python-falsy fps `0`. -/
theorem fps_forwarded_iff_truthy (a : AdaptArgs) :
    ∃ inv, adapt_to_format a = Except.ok inv ∧
      inv.rate = (if a.fps = none ∨ a.fps = some 0 then none else a.fps) := by
  refine ⟨planned a, adapt_eq_planned a, ?_⟩
  have hr : (planned a).rate = rateArg a.fps := by
    unfold planned Invocation.rate
    cases hbb : a.blur_bg <;> by_cases hf : a.mode = "fit" <;> simp [hbb, hf]
  rw [hr]
  unfold rateArg
  cases hfp : a.fps with
  | none => simp
  | some f => by_cases h0 : f = 0 <;> simp [h0]

/-- C8, counterexample: the region `{x := 1, y := 0, w := 1, h := 1}` is
valid in the sense of §3 (all four components lie in `[0,1]`), yet its
singleton union is not the region itself: the unioned right edge is
clamped to `min(1, 1 + 1) = 1`, so the width collapses from `1` to `0`. -/
theorem union_singleton_clamped :
    ({ x := 1, y := 0, w := 1, h := 1 } : Region).valid ∧
    union [{ x := 1, y := 0, w := 1, h := 1 }] ≠
      some { x := 1, y := 0, w := 1, h := 1 } := by
  refine ⟨by norm_num [Region.valid], fun hc => ?_⟩
  simp only [union, List.foldl] at hc
  rw [Option.some.injEq, Region.mk.injEq] at hc
  obtain ⟨-, -, hw, -⟩ := hc
  norm_num [min_def, max_def] at hw

/-- C8, amended: `union` of the empty list is `none`, and `union` is
idempotent on a singleton valid Region that moreover lies inside the unit
square (`x + w ≤ 1` and `y + h ≤ 1`, so the clamping of the right and
bottom edges is inactive). -/
theorem union_singleton_within_bounds (r : Region) (hv : r.valid)
    (hr : r.x + r.w ≤ 1) (hb : r.y + r.h ≤ 1) :
    union ([] : List Region) = none ∧ union [r] = some r := by
  obtain ⟨x, y, w, h⟩ := r
  obtain ⟨hx0, hx1, hy0, hy1, hw0, hw1, hh0, hh1⟩ := hv
  refine ⟨rfl, ?_⟩
  simp only [union, List.foldl]
  rw [max_eq_right hx0, max_eq_right hy0, min_eq_right hr, min_eq_right hb,
    add_sub_cancel_left, add_sub_cancel_left, max_eq_right hw0,
    max_eq_right hh0]

/-- Witness for C8 at the region `{x := 0, y := 0, w := 1, h := 1}`. -/
theorem union_singleton_within_bounds_witness :
    ({ x := 0, y := 0, w := 1, h := 1 } : Region).valid ∧
    ({ x := 0, y := 0, w := 1, h := 1 } : Region).x +
      ({ x := 0, y := 0, w := 1, h := 1 } : Region).w ≤ 1 ∧
    ({ x := 0, y := 0, w := 1, h := 1 } : Region).y +
      ({ x := 0, y := 0, w := 1, h := 1 } : Region).h ≤ 1 ∧
    (union ([] : List Region) = none ∧
      union [{ x := 0, y := 0, w := 1, h := 1 }] =
        some { x := 0, y := 0, w := 1, h := 1 }) :=
  ⟨by simp [Region.valid], by simp, by simp,
    union_singleton_within_bounds { x := 0, y := 0, w := 1, h := 1 }
      (by simp [Region.valid]) (by simp) (by simp)⟩

end Billboard
